import Mathlib

/-!
Shallow embedding of the Flask API in `src/app.py` (a read-only REST facade
over spreadsheet tables), together with theorems settling the specification
claims about it.

Modelling conventions:
* A spreadsheet worksheet is a `List (List String)` (rows of string cells,
  header row included), exactly what `get_all_values()` returns.
* The remote spreadsheet is passed to each handler explicitly, either as the
  worksheet it reads or as a `fetch : String → Option (List (List String))`
  function (`none` models the fetch raising an exception).
* Python reads cells as `row[i]`; the embedding uses `row.getD i d`.  All
  rows appearing in the claims have enough cells, so the default is never hit
  where Python would raise `IndexError`.
* Flask's `jsonify` always answers with HTTP status 200 unless a status is
  passed explicitly (the app never passes one); it is modelled by `jsonify`
  below, which records the status in the response.
* `request.args.get("student_ids") or request.args.get("student_id")` is
  modelled as a single combined `Option String` parameter (Python's `or`
  merges the two spellings; an absent or empty parameter is falsy).
* The threaded fan-out in `get_student_scores` / `get_test_score_details`
  joins all threads before returning; the embedding performs the per-sheet
  fetches in the sheet-list order.  The claims under study concern only which
  entries the resulting mapping contains, not the interleaving.
-/

/-- A JSON response body: either a list of records or the
`\x7b"error": msg\x7d` object the handlers build. -/
inductive Body (α : Type) where
  | ok (records : List α)
  | error (msg : String)
deriving DecidableEq, Repr

/-- An HTTP response: status code plus JSON body. -/
structure HttpResponse (α : Type) where
  status : Nat
  body : Body α
deriving DecidableEq, Repr

/-- Flask's `jsonify`: the app never passes an explicit status code, so the
status is always 200. -/
def jsonify {α : Type} (b : Body α) : HttpResponse α := ⟨200, b⟩

/-- The Python idiom `jsonify(xs if xs else \x7b"error": msg\x7d)` used at the end
of every handler: an empty list degrades to the error sentinel object. -/
def listOrError {α : Type} (l : List α) (msg : String) : Body α :=
  if l.isEmpty then .error msg else .ok l

/-- The fixed in-code API-key table `API_KEYS` of `src/app.py`. -/
def API_KEYS : List (String × String) :=
  [("003fb7e922cd6595f4243703b7d3a32f", "MedSchoolA"),
   ("2d7ebd0c14a5c41d18172341920cd222", "MedSchoolB"),
   ("9198340729aae63e06785df4cd61d8b2", "MedSchoolC"),
   ("20e8b4cad8f774a7bbe076029ba3a38c", "MedSchoolD"),
   ("a71ed21d7da1aead4e5088827d1c67fc", "MasterKey")]

/-- `set(row[1] for row in data[1:] if row[0] == school_id)` computed inside
`validate_api_key_and_student` over the `roster_data` worksheet (as a list;
only membership is ever used). -/
def valid_students (school_id : String) (roster : List (List String)) :
    List String :=
  (roster.drop 1).filterMap fun row =>
    if row.getD 0 "" = school_id then some (row.getD 1 "") else none

/-- `validate_api_key_and_student(api_key, school_id, student_ids=None)` from
`src/app.py` (lines 56-70).  The roster worksheet it fetches on demand is
passed explicitly; `student_ids = []` models both Python's `None` default and
an empty list (both falsy, so both skip the roster check). -/
def validate_api_key_and_student (api_key school_id : String)
    (student_ids : List String) (roster : List (List String)) :
    Bool × Option String :=
  match API_KEYS.lookup api_key with
  | none => (false, some "Invalid API key.")
  | some assigned_school =>
    if assigned_school ≠ "MasterKey" ∧ assigned_school ≠ school_id then
      (false, some "Access denied.")
    else if student_ids.isEmpty then
      (true, none)
    else if student_ids.any fun sid =>
        !((valid_students school_id roster).contains sid) then
      (false, some "One or more students do not belong to the provided school.")
    else
      (true, none)

/-- Python's `str.split(",")` on the character list: comma-separated pieces,
with `[""]` for the empty string (Python's behavior). -/
def splitCommaChars : List Char → List (List Char)
  | [] => [[]]
  | c :: cs =>
    match splitCommaChars cs with
    | [] => if c = ',' then [[], []] else [[c]]
    | h :: t => if c = ',' then [] :: h :: t else (c :: h) :: t

/-- Python's `str.split(",")`. -/
def splitComma (s : String) : List String :=
  (splitCommaChars s.data).map fun cs => String.mk cs

/-- Python's `str.strip()`: drop leading and trailing whitespace. -/
def pyStrip (s : String) : String :=
  String.mk
    (((s.data.dropWhile Char.isWhitespace).reverse.dropWhile
      Char.isWhitespace).reverse)

/-- Parameter parsing in `Students.get` and `TestScoreDetails.get`:
`student_ids.split(",")` when the parameter is truthy, with NO trimming of
the pieces. -/
def parseIdsRaw (param : Option String) : List String :=
  match param with
  | none => []
  | some s => if s.isEmpty then [] else splitComma s

/-- Parameter parsing in `StudentScores.get`, `StudentTests.get` and
`USMLEResults.get`: split on commas, then `strip()` each piece. -/
def parseIdsTrim (param : Option String) : List String :=
  match param with
  | none => []
  | some s => if s.isEmpty then [] else (splitComma s).map pyStrip

/-- A roster record as projected by `Students.get`. -/
structure StudentRec where
  school_name : String
  student_id : String
  first_name : String
  last_name : String
  campus : String
  med_year : String
deriving DecidableEq, Repr

/-- A score record as projected by `StudentScores.get` (and re-used by
`StudentTests.get`). -/
structure ScoreRec where
  school_name : String
  student_id : String
  test_id : String
  test_date : String
  score : String
deriving DecidableEq, Repr

/-- A USMLE result record as projected by `get_all_usmle_results`. -/
structure UsmleRec where
  student_id : String
  test_id : String
  test_date : String
  result : String
deriving DecidableEq, Repr

/-- `Students.get` (lines 115-144): parse ids (raw split, no trim), validate
with those ids, then filter the roster rows by school equality and optional
id membership. -/
def Students_get (api_key school_id : String) (student_param : Option String)
    (roster : List (List String)) : HttpResponse StudentRec :=
  let student_ids := parseIdsRaw student_param
  let v := validate_api_key_and_student api_key school_id student_ids roster
  if v.1 then
    let students := (roster.drop 1).filterMap fun row =>
      if row.getD 0 "" = school_id ∧
          (student_ids.isEmpty ∨ row.getD 1 "" ∈ student_ids) then
        some { school_name := row.getD 0 "", student_id := row.getD 1 "",
               first_name := row.getD 2 "", last_name := row.getD 3 "",
               campus := row.getD 4 "N/A", med_year := row.getD 5 "N/A" }
      else none
    jsonify (listOrError students "No students found.")
  else
    jsonify (.error (v.2.getD ""))

/-- The three sheet names fetched by `get_student_scores`. -/
def score_sheets : List String := ["se_scores", "cas_scores", "nsas_scores"]

/-- `get_student_scores` (lines 149-168): fetch the three score sheets in a
thread pool.  On an exception for a sheet the `except` branch only logs, so
NO entry at all is stored for that sheet; on success the rows are stored
under the sheet name. -/
def get_student_scores (fetch : String → Option (List (List String))) :
    List (String × List (List String)) :=
  score_sheets.filterMap fun s => (fetch s).map fun d => (s, d)

/-- The two sheet names fetched by `get_test_score_details`. -/
def detail_sheets : List String := ["se_scores", "nsas_scores"]

/-- `get_test_score_details` (lines 260-283): fetch the two detail sheets in
threads.  Unlike `get_student_scores`, the `except` branch stores an empty
list for the failed sheet, so every requested sheet name gets an entry. -/
def get_test_score_details (fetch : String → Option (List (List String))) :
    List (String × List (List String)) :=
  detail_sheets.map fun s => (s, (fetch s).getD [])

/-- The row loop of `StudentScores.get` over one sheet's data: skip the
header, trim the school/student/test cells, and keep rows matching the
school and the optional id filters. -/
def scoresFromSheet (school_id : String) (student_ids test_ids : List String)
    (data : List (List String)) : List ScoreRec :=
  (data.drop 1).filterMap fun row =>
    let dataset_school_id := pyStrip (row.getD 0 "")
    let dataset_student_id := pyStrip (row.getD 1 "")
    let dataset_test_id := pyStrip (row.getD 2 "")
    if dataset_school_id = school_id ∧
        (student_ids.isEmpty ∨ dataset_student_id ∈ student_ids) ∧
        (test_ids.isEmpty ∨ dataset_test_id ∈ test_ids) then
      some { school_name := dataset_school_id,
             student_id := dataset_student_id,
             test_id := dataset_test_id,
             test_date := row.getD 3 "", score := row.getD 4 "" }
    else none

/-- The full accumulation loop of `StudentScores.get` over
`sheets_data.items()`. -/
def scoresList (school_id : String) (student_ids test_ids : List String)
    (sheets_data : List (String × List (List String))) : List ScoreRec :=
  sheets_data.flatMap fun p => scoresFromSheet school_id student_ids test_ids p.2

/-- `StudentScores.get` (lines 170-224): parse ids with trimming, validate
the key/school pair WITHOUT passing the student ids, fetch the cached
three-sheet data, filter, and answer the list or the "No scores found."
sentinel. -/
def StudentScores_get (api_key school_id : String)
    (student_param test_param : Option String)
    (fetch : String → Option (List (List String)))
    (roster : List (List String)) : HttpResponse ScoreRec :=
  let student_ids := parseIdsTrim student_param
  let test_ids := parseIdsTrim test_param
  let v := validate_api_key_and_student api_key school_id [] roster
  if v.1 then
    let scores := scoresList school_id student_ids test_ids
      (get_student_scores fetch)
    jsonify (listOrError scores "No scores found.")
  else
    jsonify (.error (v.2.getD ""))

/-- `StudentTests.get` (lines 229-255): parse ids with trimming, validate
WITH the student ids, then call `StudentScores().get()` — which re-reads the
same request's parameters, hence receives the same `student_param` and
`test_param` — and re-filter its JSON output.  A non-list (error object)
inner response yields "Failed to fetch student scores.".  Every record built
by the scores handler carries a `student_id` field, so the Python guard
`"student_id" in record` is always true in the model. -/
def StudentTests_get (api_key school_id : String)
    (student_param test_param : Option String)
    (fetch : String → Option (List (List String)))
    (roster : List (List String)) : HttpResponse ScoreRec :=
  let student_ids := parseIdsTrim student_param
  let v := validate_api_key_and_student api_key school_id student_ids roster
  if v.1 then
    match (StudentScores_get api_key school_id student_param test_param
        fetch roster).body with
    | .ok scores_data =>
      let filtered_tests := scores_data.filter fun r =>
        student_ids.contains r.student_id
      jsonify (listOrError filtered_tests
        "No tests found for the specified students.")
    | .error _ => jsonify (.error "Failed to fetch student scores.")
  else
    jsonify (.error (v.2.getD ""))

/-- `get_all_usmle_results` (lines 340-349): read the `usmle_results`
worksheet and project columns 1-4 of every non-header row.  Note that
column 0 (the school) is NOT read and no school filter is applied. -/
def get_all_usmle_results (data : List (List String)) : List UsmleRec :=
  if data.length < 2 then []
  else (data.drop 1).map fun row =>
    { student_id := row.getD 1 "", test_id := row.getD 2 "",
      test_date := row.getD 3 "", result := row.getD 4 "" }

/-- `USMLEResults.get` (lines 351-381): parse ids with trimming, validate
WITH the student ids, then filter `get_all_usmle_results` output by id
membership only (empty ids keep everything; the handler applies no school
filter).  The `all_results is None` guard is dead in the model because
`get_all_usmle_results` always returns a list. -/
def USMLEResults_get (api_key school_id : String)
    (student_param : Option String)
    (usmle_data roster : List (List String)) : HttpResponse UsmleRec :=
  let student_ids := parseIdsTrim student_param
  let v := validate_api_key_and_student api_key school_id student_ids roster
  if v.1 then
    let all_results := get_all_usmle_results usmle_data
    let student_results := all_results.filter fun r =>
      student_ids.isEmpty || student_ids.contains r.student_id
    jsonify (listOrError student_results
      "No USMLE results found for the specified students.")
  else
    jsonify (.error (v.2.getD ""))

/-- A cache entry: the memoized value and its absolute expiry time. -/
structure CacheEntry (α : Type) where
  value : α
  expiry : Nat
deriving DecidableEq, Repr

/-- The fixed 5-minute TTL passed as `timeout=300` to every `cache.cached`
decorator in `src/app.py`. -/
def CACHE_TTL : Nat := 300

/-- Modelled from the spec: the `cache.cached(timeout=...)` memoization is
implemented by the external `flask_caching` library, whose code is not part
of this repository; only its call sites are.  Per the spec's contract
(section 4.2): on call, if a live entry exists for the operation, return it;
otherwise invoke `producer_fn`, store the result with
`expiry = now + ttl`, and return it.  The per-operation cache slot is
threaded explicitly as `entry`; the call returns the value together with
the slot's new contents. -/
def cached {α : Type} (now ttl : Nat) (producer_fn : Unit → α)
    (entry : Option (CacheEntry α)) : α × CacheEntry α :=
  match entry with
  | some e =>
    if now < e.expiry then (e.value, e)
    else (producer_fn (), ⟨producer_fn (), now + ttl⟩)
  | none => (producer_fn (), ⟨producer_fn (), now + ttl⟩)

/-! ## Concrete data used by counterexamples and witnesses -/

/-- The API key bound to school MedSchoolA, used in concrete scenarios. -/
def keyA : String := "003fb7e922cd6595f4243703b7d3a32f"

/-- A small `roster_data` worksheet: header plus one student for each of
MedSchoolA and MedSchoolB. -/
def rosterAB : List (List String) :=
  [["school_id", "student_id", "first_name", "last_name"],
   ["MedSchoolA", "S1", "Jane", "Doe"],
   ["MedSchoolB", "SB1", "Bob", "Beta"]]

/-- A `usmle_results` worksheet whose only data row belongs to MedSchoolB. -/
def usmleForeign : List (List String) :=
  [["school_id", "student_id", "test_id", "test_date", "result"],
   ["MedSchoolB", "SB1", "STEP1", "2024-01-01", "PASS"]]

/-- A fetch in which the `se_scores` sheet raises and every other sheet
succeeds with one MedSchoolA row. -/
def failFetch : String → Option (List (List String)) := fun s =>
  if s = "se_scores" then none
  else some [["school_id", "student_id", "test_id", "test_date", "score"],
             ["MedSchoolA", "S1", "T1", "2024-01-01", "88"]]

/-- A fetch whose only score row is for student S2 of MedSchoolA (so a
request for S1 matches nothing). -/
def fetchNoS1 : String → Option (List (List String)) := fun s =>
  if s = "se_scores" then
    some [["school_id", "student_id", "test_id", "test_date", "score"],
          ["MedSchoolA", "S2", "T1", "2024-01-01", "90"]]
  else some []

/-- A fetch whose only score row is for student S9 of MedSchoolA, a student
that does not appear in the roster worksheet `rosterAB`. -/
def fetchS9 : String → Option (List (List String)) := fun s =>
  if s = "se_scores" then
    some [["school_id", "student_id", "test_id", "test_date", "score"],
          ["MedSchoolA", "S9", "T1", "2024-01-01", "77"]]
  else some []

/-! ## Claims -/

/-- C3: the key/school validation steps are exactly: an api_key absent from
the registry yields `Invalid API key.`; the api_key mapped to the MasterKey
sentinel passes the key/school check for every school_id; an api_key bound
to school X with a requested school_id Y ≠ X yields `Access denied.`. -/
theorem validate_key_school_cases :
    (∀ k sid sids roster, API_KEYS.lookup k = none →
        validate_api_key_and_student k sid sids roster
          = (false, some "Invalid API key.")) ∧
    (∀ k sid roster, API_KEYS.lookup k = some "MasterKey" →
        validate_api_key_and_student k sid [] roster = (true, none)) ∧
    (∀ k X Y sids roster, API_KEYS.lookup k = some X → X ≠ "MasterKey" →
        Y ≠ X →
        validate_api_key_and_student k Y sids roster
          = (false, some "Access denied.")) := by
  refine ⟨?_, ?_, ?_⟩
  · intro k sid sids roster h
    simp [validate_api_key_and_student, h]
  · intro k sid roster h
    simp [validate_api_key_and_student, h]
  · intro k X Y sids roster h hX hY
    simp [validate_api_key_and_student, h, hX, Ne.symm hY]

/-- Witness for C3 at the concrete registry. -/
theorem validate_key_school_cases_witness :
    validate_api_key_and_student "nokey" "MedSchoolA" [] []
        = (false, some "Invalid API key.") ∧
    validate_api_key_and_student "a71ed21d7da1aead4e5088827d1c67fc"
        "AnySchool" [] [] = (true, none) ∧
    validate_api_key_and_student keyA "MedSchoolB" [] []
        = (false, some "Access denied.") :=
  ⟨validate_key_school_cases.1 "nokey" "MedSchoolA" [] [] (by decide),
   validate_key_school_cases.2.1 "a71ed21d7da1aead4e5088827d1c67fc"
     "AnySchool" [] (by decide),
   validate_key_school_cases.2.2 keyA "MedSchoolA" "MedSchoolB" [] []
     (by decide) (by decide) (by decide)⟩

/-- C4: with a valid key/school pair, a non-empty student_ids list validates
successfully exactly when every requested id is among the roster's student
ids for the requested school; any id outside that set yields the
`UnknownStudent` message; and with empty student_ids the roster-membership
check is skipped entirely (the result does not depend on the roster and the
`UnknownStudent` message can never be produced). -/
theorem validate_roster_cases :
    (∀ k X sids roster, sids ≠ [] →
        validate_api_key_and_student k X [] roster = (true, none) →
        (∀ sid ∈ sids, sid ∈ valid_students X roster) →
        validate_api_key_and_student k X sids roster = (true, none)) ∧
    (∀ k X sids roster, sids ≠ [] →
        validate_api_key_and_student k X [] roster = (true, none) →
        (∃ sid ∈ sids, sid ∉ valid_students X roster) →
        validate_api_key_and_student k X sids roster
          = (false,
             some "One or more students do not belong to the provided school.")) ∧
    (∀ k X roster roster2,
        validate_api_key_and_student k X [] roster
          = validate_api_key_and_student k X [] roster2) ∧
    (∀ k X roster,
        validate_api_key_and_student k X [] roster
          ≠ (false,
             some "One or more students do not belong to the provided school.")) := by
  have hred : ∀ k X sids roster, sids ≠ [] →
      validate_api_key_and_student k X [] roster = (true, none) →
      validate_api_key_and_student k X sids roster
        = if sids.any fun sid =>
            !((valid_students X roster).contains sid) then
          (false, some "One or more students do not belong to the provided school.")
        else (true, none) := by
    intro k X sids roster hne hv
    cases hk : API_KEYS.lookup k with
    | none => simp [validate_api_key_and_student, hk] at hv
    | some a =>
      by_cases hc : a ≠ "MasterKey" ∧ a ≠ X
      · simp [validate_api_key_and_student, hk, hc] at hv
      · simp [validate_api_key_and_student, hk, hc, hne]
  refine ⟨?_, ?_, ?_, ?_⟩
  · intro k X sids roster hne hv hall
    rw [hred k X sids roster hne hv, if_neg]
    simp only [List.any_eq_true, Bool.not_eq_true', not_exists, not_and,
      Bool.not_eq_false]
    intro sid hsid
    exact List.elem_eq_true_of_mem (hall sid hsid)
  · intro k X sids roster hne hv hex
    rw [hred k X sids roster hne hv, if_pos]
    obtain ⟨sid, hsid, hout⟩ := hex
    refine List.any_eq_true.2 ⟨sid, hsid, ?_⟩
    simpa using fun hc => hout (List.mem_of_elem_eq_true hc)
  · intro k X roster roster2
    unfold validate_api_key_and_student
    cases API_KEYS.lookup k <;> simp
  · intro k X roster
    unfold validate_api_key_and_student
    cases API_KEYS.lookup k with
    | none => simp
    | some a =>
      by_cases hc : a ≠ "MasterKey" ∧ a ≠ X <;> simp [hc]

/-- Witness for C4 at concrete inputs: `S1` belongs to MedSchoolA's roster,
`SB1` does not. -/
theorem validate_roster_cases_witness :
    validate_api_key_and_student keyA "MedSchoolA" ["S1"] rosterAB
        = (true, none) ∧
    validate_api_key_and_student keyA "MedSchoolA" ["S1", "SB1"] rosterAB
        = (false,
           some "One or more students do not belong to the provided school.") :=
  ⟨validate_roster_cases.1 keyA "MedSchoolA" ["S1"] rosterAB (by decide)
     (by decide) (by decide),
   validate_roster_cases.2.1 keyA "MedSchoolA" ["S1", "SB1"] rosterAB
     (by decide) (by decide) ⟨"SB1", by decide, by decide⟩⟩

/-- C7: for the 300-second cache, the first call produces the value; a
second call strictly within the TTL window returns the identical cached
value even though the producer has changed (the source data changed); a
call at or after expiry re-invokes the new producer and reflects the
updated data. -/
theorem cache_ttl_snapshot {α : Type} (f g : Unit → α) (t0 t1 : Nat) :
    ((cached t0 CACHE_TTL f none).1 = f ()) ∧
    (t1 < t0 + CACHE_TTL →
      (cached t1 CACHE_TTL g (some (cached t0 CACHE_TTL f none).2)).1
        = (cached t0 CACHE_TTL f none).1) ∧
    (t0 + CACHE_TTL ≤ t1 →
      (cached t1 CACHE_TTL g (some (cached t0 CACHE_TTL f none).2)).1
        = g ()) := by
  refine ⟨rfl, ?_, ?_⟩
  · intro h
    simp [cached, CACHE_TTL] at h ⊢
    simp [h]
  · intro h
    simp [cached, CACHE_TTL] at h ⊢
    simp [Nat.not_lt.2 h]

/-- Witness for C7: a hit at t=100 keeps the stale value 1, a call at t=300
re-runs the producer and yields 2. -/
theorem cache_ttl_snapshot_witness :
    (cached 100 CACHE_TTL (fun _ => (2 : Nat))
        (some (cached 0 CACHE_TTL (fun _ => (1 : Nat)) none).2)).1 = 1 ∧
    (cached 300 CACHE_TTL (fun _ => (2 : Nat))
        (some (cached 0 CACHE_TTL (fun _ => (1 : Nat)) none).2)).1 = 2 :=
  ⟨(cache_ttl_snapshot (fun _ => (1 : Nat)) (fun _ => (2 : Nat)) 0 100).2.1
     (by decide),
   (cache_ttl_snapshot (fun _ => (1 : Nat)) (fun _ => (2 : Nat)) 0 300).2.2
     (by decide)⟩

/-- C1: school scoping does NOT hold for `/api/students/usmle-results`.
With MedSchoolA's key, school_id=MedSchoolA and no student_ids, the handler
returns the USMLE row of student SB1 even though that row's school cell —
and SB1's roster school — is MedSchoolB: neither `get_all_usmle_results`
nor the handler ever compares a school to the requested one. -/
theorem usmle_no_school_scoping :
    (USMLEResults_get keyA "MedSchoolA" none usmleForeign rosterAB).body
        = .ok [⟨"SB1", "STEP1", "2024-01-01", "PASS"⟩] ∧
    (usmleForeign.getD 1 []).getD 0 "" = "MedSchoolB" ∧
    "SB1" ∈ valid_students "MedSchoolB" rosterAB ∧
    "SB1" ∉ valid_students "MedSchoolA" rosterAB := by decide

/-- C2 counterexample: when fetching `se_scores` fails, the three-sheet
mapping built by `get_student_scores` has NO entry at all for `se_scores`
(the claim demands an entry holding an empty sequence). -/
theorem multi_fetch_counterexample :
    "se_scores" ∈ score_sheets ∧
    (get_student_scores failFetch).lookup "se_scores" = none := by decide

/-- C2 amended: `get_test_score_details` does return an entry for every
requested sheet, with the failed sheet's entry an empty sequence; in
`get_student_scores`, however, a failed sheet's entry is missing entirely,
while every successfully fetched sheet still contributes its rows (so one
failure never prevents the other sheets' rows from being returned). -/
theorem multi_fetch_amended :
    (∀ (fetch : String → Option (List (List String))) s, s ∈ detail_sheets →
        (get_test_score_details fetch).lookup s = some ((fetch s).getD [])) ∧
    (∀ (fetch : String → Option (List (List String))) s d, s ∈ score_sheets →
        fetch s = some d →
        (get_student_scores fetch).lookup s = some d) := by
  constructor
  · intro fetch s hs
    simp only [detail_sheets, List.mem_cons, List.not_mem_nil, or_false] at hs
    rcases hs with rfl | rfl <;> rfl
  · intro fetch s d hs hd
    simp only [score_sheets, List.mem_cons, List.not_mem_nil, or_false] at hs
    rcases hs with rfl | rfl | rfl
    · simp [get_student_scores, score_sheets, hd, List.lookup]
    · cases h1 : fetch "se_scores" <;>
        simp [get_student_scores, score_sheets, hd, h1, List.lookup]
    · cases h1 : fetch "se_scores" <;> cases h2 : fetch "cas_scores" <;>
        simp [get_student_scores, score_sheets, hd, h1, h2, List.lookup]

/-- Witness for C2's amended claim at the failing fetch `failFetch`. -/
theorem multi_fetch_amended_witness :
    (get_test_score_details failFetch).lookup "se_scores" = some [] ∧
    (get_student_scores failFetch).lookup "cas_scores"
      = some [["school_id", "student_id", "test_id", "test_date", "score"],
              ["MedSchoolA", "S1", "T1", "2024-01-01", "88"]] :=
  ⟨multi_fetch_amended.1 failFetch "se_scores" (by decide),
   multi_fetch_amended.2 failFetch "cas_scores"
     [["school_id", "student_id", "test_id", "test_date", "score"],
      ["MedSchoolA", "S1", "T1", "2024-01-01", "88"]] (by decide) rfl⟩

/-- C8: every embedded endpoint answers with HTTP status 200 on every input
— error conditions included — and every validation failure is reported only
through the `error`-shaped JSON body, never through the status code. -/
theorem responses_always_200 :
    ∀ (k sch : String) (sp tp : Option String)
      (fetch : String → Option (List (List String)))
      (roster usmle : List (List String)),
      (Students_get k sch sp roster).status = 200 ∧
      (StudentScores_get k sch sp tp fetch roster).status = 200 ∧
      (StudentTests_get k sch sp tp fetch roster).status = 200 ∧
      (USMLEResults_get k sch sp usmle roster).status = 200 ∧
      (∀ msg, validate_api_key_and_student k sch (parseIdsRaw sp) roster
          = (false, some msg) →
        (Students_get k sch sp roster).body = .error msg) ∧
      (∀ msg, validate_api_key_and_student k sch [] roster
          = (false, some msg) →
        (StudentScores_get k sch sp tp fetch roster).body = .error msg) := by
  intro k sch sp tp fetch roster usmle
  refine ⟨?_, ?_, ?_, ?_, ?_, ?_⟩
  · simp only [Students_get]
    split <;> rfl
  · simp only [StudentScores_get]
    split <;> rfl
  · simp only [StudentTests_get]
    split
    · split <;> rfl
    · rfl
  · simp only [USMLEResults_get]
    split <;> rfl
  · intro msg hv
    simp only [Students_get, hv, jsonify]
    rfl
  · intro msg hv
    simp only [StudentScores_get, hv, jsonify]
    rfl

/-- Witness for C8: an unregistered key gets a 200-shaped error body. -/
theorem responses_always_200_witness :
    (Students_get "nokey" "X" none []).body = .error "Invalid API key." :=
  (responses_always_200 "nokey" "X" none none (fun _ => none) [] []).2.2.2.2.1
    "Invalid API key." (by decide)

/-- With empty student_ids the validator can only succeed or fail on the
key/school check: the roster branch is unreachable. -/
theorem validate_empty_never_unknown (k X : String)
    (roster : List (List String)) :
    validate_api_key_and_student k X [] roster = (true, none) ∨
    validate_api_key_and_student k X [] roster
      = (false, some "Invalid API key.") ∨
    validate_api_key_and_student k X [] roster
      = (false, some "Access denied.") := by
  unfold validate_api_key_and_student
  cases API_KEYS.lookup k with
  | none => right; left; rfl
  | some a =>
    by_cases hc : a ≠ "MasterKey" ∧ a ≠ X
    · right; right; simp [hc]
    · left; simp [hc]

/-- If validation passes with some student_ids list, it also passes with the
empty list (the key/school part of the check is the same). -/
theorem validate_drop_ids (k X : String) (sids : List String)
    (roster : List (List String))
    (h : validate_api_key_and_student k X sids roster = (true, none)) :
    validate_api_key_and_student k X [] roster = (true, none) := by
  unfold validate_api_key_and_student at h ⊢
  cases hk : API_KEYS.lookup k with
  | none => simp [hk] at h
  | some a =>
    simp only [hk] at h ⊢
    by_cases hc : a ≠ "MasterKey" ∧ a ≠ X
    · rw [if_pos hc] at h
      simp at h
    · rw [if_neg hc] at h ⊢
      simp

/-- When the key/school check passes, the scores handler's body is the
filtered score list or the empty-result sentinel. -/
theorem scores_body_eq (k sch : String) (sp tp : Option String)
    (fetch : String → Option (List (List String)))
    (roster : List (List String))
    (hv0 : validate_api_key_and_student k sch [] roster = (true, none)) :
    (StudentScores_get k sch sp tp fetch roster).body
      = listOrError (scoresList sch (parseIdsTrim sp) (parseIdsTrim tp)
          (get_student_scores fetch)) "No scores found." := by
  simp only [StudentScores_get, hv0, jsonify]
  rfl

/-- C9: `/api/students/scores` can never answer with the `UnknownStudent`
error, because its handler invokes validation without student_ids; with a
valid key/school pair the response is always the filtered score list or the
`No scores found.` sentinel, whatever ids the request names (ids outside
the roster are not rejected). -/
theorem scores_never_unknown_student :
    ∀ (k sch : String) (sp tp : Option String)
      (fetch : String → Option (List (List String)))
      (roster : List (List String)),
      ((StudentScores_get k sch sp tp fetch roster).body
        ≠ .error "One or more students do not belong to the provided school.") ∧
      (validate_api_key_and_student k sch [] roster = (true, none) →
        (StudentScores_get k sch sp tp fetch roster).body
          = listOrError
              (scoresList sch (parseIdsTrim sp) (parseIdsTrim tp)
                (get_student_scores fetch)) "No scores found.") := by
  intro k sch sp tp fetch roster
  refine ⟨?_, scores_body_eq k sch sp tp fetch roster⟩
  rcases validate_empty_never_unknown k sch roster with hv | hv | hv
  · rw [scores_body_eq k sch sp tp fetch roster hv]
    unfold listOrError
    split
    · simp
    · simp
  · simp only [StudentScores_get, hv, jsonify]
    simp
  · simp only [StudentScores_get, hv, jsonify]
    simp

/-- C9 counterexample to the "select no rows" part of the original claim:
student S9 is outside MedSchoolA's roster, yet requesting S9 returns S9's
score row (from a score sheet that contains a row for the non-rostered S9)
rather than the `No scores found.` sentinel. -/
theorem scores_nonroster_counterexample :
    "S9" ∉ valid_students "MedSchoolA" rosterAB ∧
    (StudentScores_get keyA "MedSchoolA" (some "S9") none fetchS9
        rosterAB).body ≠ .error "No scores found." ∧
    (StudentScores_get keyA "MedSchoolA" (some "S9") none fetchS9
        rosterAB).body
      = .ok [⟨"MedSchoolA", "S9", "T1", "2024-01-01", "77"⟩] := by decide

/-- Witness for C9: a concrete valid request naming only the non-rostered
student S9. -/
theorem scores_never_unknown_student_witness :
    (StudentScores_get keyA "MedSchoolA" (some "S9") none fetchS9
        rosterAB).body
      = listOrError
          (scoresList "MedSchoolA" (parseIdsTrim (some "S9"))
            (parseIdsTrim none) (get_student_scores fetchS9))
          "No scores found." :=
  (scores_never_unknown_student keyA "MedSchoolA" (some "S9") none fetchS9
    rosterAB).2 (by decide)

/-- C10: for a request to `/api/students/tests` with a valid key/school pair
and an empty or absent student_id(s) parameter, given that the inner scores
handler returns a list, the handler terminates normally (it is a total
function) and membership in the empty requested set filters everything out,
so the response is the `No tests found for the specified students.`
sentinel. -/
theorem tests_empty_ids_no_raise :
    ∀ (k sch : String) (sp : Option String)
      (fetch : String → Option (List (List String)))
      (roster : List (List String)) (l : List ScoreRec),
      parseIdsTrim sp = [] →
      validate_api_key_and_student k sch [] roster = (true, none) →
      (StudentScores_get k sch sp none fetch roster).body = .ok l →
      (StudentTests_get k sch sp none fetch roster).body
        = .error "No tests found for the specified students." := by
  intro k sch sp fetch roster l hsp hv hs
  simp only [StudentTests_get, hsp, hv, hs]
  simp [listOrError, jsonify]

/-- Witness for C10 at a concrete request with no student_id(s) parameter. -/
theorem tests_empty_ids_no_raise_witness :
    (StudentTests_get keyA "MedSchoolA" none none fetchS9 rosterAB).body
      = .error "No tests found for the specified students." :=
  tests_empty_ids_no_raise keyA "MedSchoolA" none fetchS9 rosterAB
    [⟨"MedSchoolA", "S9", "T1", "2024-01-01", "77"⟩] rfl (by decide)
    (by decide)


/-- A non-empty list has `isEmpty = false`. -/
theorem isEmpty_eq_false_of_ne {α : Type} (l : List α) (h : l ≠ []) :
    l.isEmpty = false := by
  cases l with
  | nil => exact absurd rfl h
  | cons a t => rfl

/-- With a non-empty requested id list, filtering one sheet by those ids is
the same as filtering the unrestricted per-sheet result by id membership. -/
theorem scoresFromSheet_restrict (sch : String) (ids : List String)
    (h : ids ≠ []) (data : List (List String)) :
    scoresFromSheet sch ids [] data
      = (scoresFromSheet sch [] [] data).filter
          fun r => ids.contains r.student_id := by
  have hni : ids.isEmpty = false := isEmpty_eq_false_of_ne ids h
  unfold scoresFromSheet
  rw [List.filter_filterMap]
  apply List.filterMap_congr
  intro row hrow
  by_cases h1 : pyStrip (row.getD 0 "") = sch
  · by_cases h2 : pyStrip (row.getD 1 "") ∈ ids
    · simp only [List.getD_eq_getElem?_getD] at h1 h2
      simp [h1, h2, hni, Option.filter]
    · have hc : ids.contains (pyStrip (row.getD 1 "")) = false := by
        cases hcc : ids.contains (pyStrip (row.getD 1 "")) with
        | false => rfl
        | true => exact absurd (List.mem_of_elem_eq_true hcc) h2
      simp only [List.getD_eq_getElem?_getD] at h1 h2 hc
      simp [h1, h2, hni, Option.filter, hc]
  · simp only [List.getD_eq_getElem?_getD] at h1
    simp [h1, hni, Option.filter]

/-- The previous lemma lifted to the full multi-sheet accumulation. -/
theorem scoresList_restrict (sch : String) (ids : List String)
    (h : ids ≠ []) (sd : List (String × List (List String))) :
    scoresList sch ids [] sd
      = (scoresList sch [] [] sd).filter
          fun r => ids.contains r.student_id := by
  induction sd with
  | nil => rfl
  | cons p ps ih =>
    show scoresFromSheet sch ids [] p.2 ++ scoresList sch ids [] ps = _
    rw [ih, scoresFromSheet_restrict sch ids h p.2]
    show _ = (scoresFromSheet sch [] [] p.2 ++ scoresList sch [] [] ps).filter _
    rw [List.filter_append]

/-- C6 counterexample: request S1 (a rostered student with no score rows).
The restriction of the school's scores to the requested set is empty, so the
claim demands the no-tests-found sentinel, but the handler answers
`Failed to fetch student scores.` (the inner scores call returned the
`No scores found.` error object, which is not a list). -/
theorem tests_sentinel_counterexample :
    (scoresList "MedSchoolA" [] [] (get_student_scores fetchNoS1)).filter
        (fun r => (parseIdsTrim (some "S1")).contains r.student_id) = [] ∧
    (StudentTests_get keyA "MedSchoolA" (some "S1") none fetchNoS1
        rosterAB).body ≠ .error "No tests found for the specified students." ∧
    (StudentTests_get keyA "MedSchoolA" (some "S1") none fetchNoS1
        rosterAB).body = .error "Failed to fetch student scores." := by decide

/-- C6 amended: after validation passes, the tests response is the scores
response for the same api_key and school_id restricted to the requested
student_ids whenever that restriction is non-empty; whenever the inner
scores call yields no rows — non-empty student_ids with an empty
restriction, or empty student_ids with an empty school score list — the
handler answers `Failed to fetch student scores.` instead of the no-tests
sentinel; the no-tests sentinel appears exactly in the one remaining case,
empty student_ids with a school whose score list is non-empty.  The four
conjuncts cover all cases (an empty id list makes the restriction empty),
so the sentinel characterization is exact. -/
theorem tests_refinement_amended (k sch : String) (sp : Option String)
    (fetch : String → Option (List (List String)))
    (roster : List (List String))
    (hv : validate_api_key_and_student k sch (parseIdsTrim sp) roster
      = (true, none)) :
    ((scoresList sch [] [] (get_student_scores fetch)).filter
          (fun r => (parseIdsTrim sp).contains r.student_id) ≠ [] →
      (StudentTests_get k sch sp none fetch roster).body
        = .ok ((scoresList sch [] [] (get_student_scores fetch)).filter
            fun r => (parseIdsTrim sp).contains r.student_id)) ∧
    (parseIdsTrim sp ≠ [] →
      (scoresList sch [] [] (get_student_scores fetch)).filter
          (fun r => (parseIdsTrim sp).contains r.student_id) = [] →
      (StudentTests_get k sch sp none fetch roster).body
        = .error "Failed to fetch student scores.") ∧
    (parseIdsTrim sp = [] →
      scoresList sch [] [] (get_student_scores fetch) ≠ [] →
      (StudentTests_get k sch sp none fetch roster).body
        = .error "No tests found for the specified students.") ∧
    (parseIdsTrim sp = [] →
      scoresList sch [] [] (get_student_scores fetch) = [] →
      (StudentTests_get k sch sp none fetch roster).body
        = .error "Failed to fetch student scores.") := by
  have hv0 : validate_api_key_and_student k sch [] roster = (true, none) :=
    validate_drop_ids k sch (parseIdsTrim sp) roster hv
  refine ⟨?_, ?_, ?_, ?_⟩
  · intro hR
    have hne : parseIdsTrim sp ≠ [] := by
      intro h0
      apply hR
      rw [h0]
      simp
    have hscores : (StudentScores_get k sch sp none fetch roster).body
        = .ok ((scoresList sch [] [] (get_student_scores fetch)).filter
            fun r => (parseIdsTrim sp).contains r.student_id) := by
      rw [scores_body_eq k sch sp none fetch roster hv0]
      simp only [show parseIdsTrim none = [] from rfl]
      rw [scoresList_restrict sch (parseIdsTrim sp) hne]
      unfold listOrError
      rw [isEmpty_eq_false_of_ne _ hR]
      rfl
    simp only [StudentTests_get, hv, hscores]
    rw [List.filter_filter]
    simp only [Bool.and_self]
    unfold listOrError
    rw [isEmpty_eq_false_of_ne _ hR]
    rfl
  · intro hne hR
    have hscores : (StudentScores_get k sch sp none fetch roster).body
        = .error "No scores found." := by
      rw [scores_body_eq k sch sp none fetch roster hv0]
      simp only [show parseIdsTrim none = [] from rfl]
      rw [scoresList_restrict sch (parseIdsTrim sp) hne, hR]
      rfl
    simp only [StudentTests_get, hv, hscores]
    rfl
  · intro hid hfull
    have hscores : (StudentScores_get k sch sp none fetch roster).body
        = .ok (scoresList sch [] [] (get_student_scores fetch)) := by
      rw [scores_body_eq k sch sp none fetch roster hv0, hid]
      simp only [show parseIdsTrim none = [] from rfl]
      unfold listOrError
      rw [isEmpty_eq_false_of_ne _ hfull]
      rfl
    simp only [StudentTests_get, hid, hv0, hscores]
    simp [listOrError, jsonify]
  · intro hid hfull0
    have hscores : (StudentScores_get k sch sp none fetch roster).body
        = .error "No scores found." := by
      rw [scores_body_eq k sch sp none fetch roster hv0, hid]
      simp only [show parseIdsTrim none = [] from rfl]
      rw [hfull0]
      rfl
    simp only [StudentTests_get, hid, hv0, hscores]
    rfl

/-- Witness for C6's amended claim: requesting the rostered student S1 with
score rows present returns exactly the scores restriction to S1. -/
theorem tests_refinement_amended_witness :
    (StudentTests_get keyA "MedSchoolA" (some "S1") none failFetch
        rosterAB).body
      = .ok ((scoresList "MedSchoolA" [] []
            (get_student_scores failFetch)).filter
          fun r => (parseIdsTrim (some "S1")).contains r.student_id) :=
  (tests_refinement_amended keyA "MedSchoolA" (some "S1") failFetch rosterAB
    (by decide)).1 (by decide)
